import Mathlib

set_option linter.unusedVariables false

/-!
Verification of the MJML rendering HTTP service (src/server.js) against its
specification.  The service is shallowly embedded: the external compiler
(mjml2html) is an abstract parameter, JavaScript runtime behaviour (string
length in UTF-16 code units, falsiness of the empty string, nullish
coalescing) is modelled explicitly, and each route handler becomes a pure
Lean function from its (schema-validated) request body to a response value.
-/

namespace MjmlApi

/-- A structured compilation diagnostic as produced by the mjml library:
the fields the library attaches to each entry of the errors array.  The
handlers project out only line, message and tagName; formattedMessage is
carried here so that that projection is visible in the model. -/
structure MjmlDiagnostic where
  line : Nat
  message : String
  tagName : String
  formattedMessage : String
  deriving Repr, DecidableEq

/-- The shape of an entry of the errors array the handlers send back:
the projection of a diagnostic to line, message and tagName
(server.js lines 149-153 and 228-232). -/
structure ErrorOut where
  line : Nat
  message : String
  tagName : String
  deriving Repr, DecidableEq

/-- Projection applied by both handlers to each compiler diagnostic:
errors.map keeping line, message and tagName. -/
def toErrorOut (e : MjmlDiagnostic) : ErrorOut :=
  { line := e.line, message := e.message, tagName := e.tagName }

/-- The object mjml2html returns when it does not throw: an html field
(possibly absent or empty, modelled as Option) and an errors array
(undefined is modelled as the empty list). -/
structure CompileResult where
  html : Option String
  errors : List MjmlDiagnostic
  deriving Repr, DecidableEq

/-- Outcome of one call to the compiler adapter: either a returned
result object, or a thrown exception carrying its message. -/
inductive CompileOutcome where
  | ok (r : CompileResult)
  | thrown (msg : String)
  deriving Repr, DecidableEq

/-- The options bag both call sites pass to mjml2html
(validationLevel soft, filePath dot). -/
structure MjmlOptions where
  validationLevel : String
  filePath : String
  deriving Repr, DecidableEq

/-- The constant options used by both handlers (server.js lines 134-137
and 217-220). -/
def renderOptions : MjmlOptions :=
  { validationLevel := "soft", filePath := "." }

/-- The compiler adapter: mjml2html modelled as an abstract pure function of
the markup string and the options bag.  A thrown exception is part of the
codomain so that the handlers' try/catch blocks can be modelled. -/
def Compiler : Type := String → MjmlOptions → CompileOutcome

/-- Number of UTF-16 code units of one character: JavaScript string length
counts astral characters (code points at or above 0x10000) twice. -/
def utf16Len (c : Char) : Nat :=
  if c.val < 0x10000 then 1 else 2

/-- JavaScript string length: the number of UTF-16 code units.  This is
what the expression mjml.length computes in server.js. -/
def jsLength (s : String) : Nat :=
  (s.data.map utf16Len).sum

/-- Byte length of the UTF-8 encoding of a string (what the specification
calls byte length; not what server.js measures). -/
def byteLen (s : String) : Nat :=
  (s.data.map Char.utf8Size).sum

/-- The size cap both handlers compare against: 1024 * 1024
(server.js lines 123 and 208). -/
def maxSize : Nat := 1024 * 1024

/-- A JSON response of the single-render route: HTTP status plus the body
fields the handler may set (absent fields are none). -/
structure HttpResponse where
  status : Nat
  html : Option String := none
  error : Option String := none
  code : Option String := none
  errors : Option (List ErrorOut) := none
  message : Option String := none
  deriving Repr, DecidableEq

/-- The 500 INTERNAL_ERROR envelope built by the outermost catch blocks of
both handlers (server.js lines 175-179 and 278-282): the raw exception
message is echoed only when the development-mode flag is set. -/
def internalErrorResponse (dev : Bool) (msg : String) : HttpResponse :=
  { status := 500
    error := some "Internal server error"
    code := some "INTERNAL_ERROR"
    message := if dev then some msg else none }

/-- The POST /render handler (server.js lines 109-181), after schema
validation has ensured the mjml field is a string.  The check bang-mjml
rejects the empty string; typeof mjml is always string here.  The html
guard bang-html also rejects an empty html string. -/
def renderHandler (mjml2html : Compiler) (dev : Bool) (mjml : String) : HttpResponse :=
  if mjml = "" then
    { status := 400
      error := some "MJML content is required and must be a string"
      code := some "INVALID_INPUT" }
  else if jsLength mjml > maxSize then
    { status := 413
      error := some "MJML content is too large (max 1MB)"
      code := some "CONTENT_TOO_LARGE" }
  else
    match mjml2html mjml renderOptions with
    | .thrown msg => internalErrorResponse dev msg
    | .ok r =>
      if r.errors ≠ [] then
        { status := 400
          error := some "MJML compilation failed"
          code := some "COMPILATION_ERROR"
          errors := some (r.errors.map toErrorOut) }
      else
        match r.html with
        | none => { status := 500, error := some "Failed to generate HTML", code := some "NO_OUTPUT" }
        | some h =>
          if h = "" then
            { status := 500, error := some "Failed to generate HTML", code := some "NO_OUTPUT" }
          else
            { status := 200, html := some h }

/-- A batch item identity as allowed by the batch schema: a string or a
number (JSON numbers of test inputs are integers; Int keeps the string or
number distinction exact, so no coercion can hide in the model). -/
inductive IdVal where
  | str (s : String)
  | num (n : Int)
  deriving Repr, DecidableEq

/-- One entry of the items array after schema validation: the mjml field
is a string, the id field is optional. -/
structure BatchItem where
  id : Option IdVal := none
  mjml : String
  deriving Repr, DecidableEq

/-- One entry of the results array of POST /render-batch. -/
structure ItemResult where
  id : IdVal
  success : Bool
  html : Option String := none
  error : Option String := none
  code : Option String := none
  errors : Option (List ErrorOut) := none
  deriving Repr, DecidableEq

/-- Processing of one batch item at a given index: the body of the
items.map callback, lines 203-254 of server.js, including its try/catch.
The id is item.id when present, the index otherwise (both the ternary at
line 205 and the nullish coalescing at line 248 resolve this way, since
schema-validated ids are strings or numbers, never null).  The per-item
catch turns a compiler exception into a PROCESSING_ERROR entry whose error
field is the raw message, with no development-mode gate.  Note the
differences from the single-render handler: there is no emptiness or type
check on mjml before the size check, and the success branch returns
whatever html the compiler produced, with no NO_OUTPUT guard. -/
def processItem (mjml2html : Compiler) (index : Nat) (item : BatchItem) : ItemResult :=
  let id := item.id.getD (.num index)
  if jsLength item.mjml > maxSize then
    { id := id
      success := false
      error := some "MJML content is too large (max 1MB)"
      code := some "CONTENT_TOO_LARGE" }
  else
    match mjml2html item.mjml renderOptions with
    | .thrown msg =>
      { id := id
        success := false
        error := some msg
        code := some "PROCESSING_ERROR" }
    | .ok r =>
      if r.errors ≠ [] then
        { id := id
          success := false
          error := some "MJML compilation failed"
          code := some "COMPILATION_ERROR"
          errors := some (r.errors.map toErrorOut) }
      else
        { id := id
          success := true
          html := r.html }

/-- items.map with the element index, as Array.prototype.map passes it:
the callback receives the element and its zero-based position. -/
def mapWithIndex (f : Nat → α → β) : Nat → List α → List β
  | _, [] => []
  | i, a :: as => f i a :: mapWithIndex f (i + 1) as

/-- The results array of a batch: every item processed independently with
its index. -/
def batchResults (mjml2html : Compiler) (items : List BatchItem) : List ItemResult :=
  mapWithIndex (processItem mjml2html) 0 items

/-- The summary object of a batch response (server.js lines 256-269):
successCount counts entries whose success field is true, failureCount is
the remainder. -/
structure BatchSummary where
  total : Nat
  success : Nat
  failed : Nat
  deriving Repr, DecidableEq

/-- The summary as the handler computes it from the results array. -/
def mkSummary (results : List ItemResult) : BatchSummary :=
  let successCount := (results.filter (fun r => r.success)).length
  { total := results.length
    success := successCount
    failed := results.length - successCount }

/-- A response of the batch route: either the 200 body with summary and
results, or an error envelope. -/
inductive BatchResponse where
  | ok (summary : BatchSummary) (results : List ItemResult)
  | err (status : Nat) (error : String) (code : String)
  deriving Repr, DecidableEq

/-- The POST /render-batch handler (server.js lines 190-284) after schema
validation: re-checks that items is a non-empty array, maps every item
through processItem, and returns the summary with the results.  The dev
flag mirrors the NODE_ENV test of the outer catch; no statement inside the
modelled body consults it, because the only throwing operation, the
compiler call, is inside the per-item catch. -/
def batchHandler (mjml2html : Compiler) (dev : Bool) (items : List BatchItem) : BatchResponse :=
  if items = [] then
    .err 400 "items array is required and must contain at least 1 item" "INVALID_INPUT"
  else
    let results := batchResults mjml2html items
    .ok (mkSummary results) results

/-- A framework-level error object as the error handler receives it:
fastify errors carry an optional HTTP status code, an optional error code
string and a message. -/
structure FrameworkError where
  statusCode : Option Nat
  code : Option String
  message : Option String
  deriving Repr, DecidableEq

/-- JavaScript short-circuit disjunction for an optional string against a
default: undefined and the empty string both fall through. -/
def jsOr (o : Option String) (d : String) : String :=
  match o with
  | some m => if m = "" then d else m
  | none => d

/-- A response of the central error handler: status plus body fields; the
generic branch also echoes a statusCode field in the body. -/
structure ErrResponse where
  status : Nat
  error : String
  code : String
  statusCode : Option Nat := none
  deriving Repr, DecidableEq

/-- The central error handler (server.js lines 320-349): schema-validation
errors (status 400 with the fastify validation code) become INVALID_INPUT,
any 413 transport error becomes CONTENT_TOO_LARGE, anything else passes
its own status and code through with 500 and INTERNAL_ERROR as defaults. -/
def setErrorHandler (e : FrameworkError) : ErrResponse :=
  if e.statusCode = some 400 ∧ e.code = some "FST_ERR_VALIDATION" then
    { status := 400, error := jsOr e.message "Validation error", code := "INVALID_INPUT" }
  else if e.statusCode = some 413 then
    { status := 413, error := jsOr e.message "Payload too large", code := "CONTENT_TOO_LARGE" }
  else
    { status := e.statusCode.getD 500
      error := jsOr e.message "Internal server error"
      code := e.code.getD "INTERNAL_ERROR"
      statusCode := some (e.statusCode.getD 500) }

/-- The error fastify raises when schema validation of a body fails:
status 400 with the library's own validation error code. -/
def validationError (msg : String) : FrameworkError :=
  { statusCode := some 400, code := some "FST_ERR_VALIDATION", message := some msg }

/-- One entry of the items array of a raw batch body, before schema
validation: an object whose id field, when present, is a string or a
number, and whose mjml field, when present, is a string; or any other
entry (a non-object, or one whose mjml is missing or not a string), which
fails both branches of the per-item oneOf below.  Objects whose id has
some other JSON type (null, boolean, ...) are outside this model: such an
id fails the first branch's type constraint but is an unconstrained extra
property to the second branch, so the entry validates and reaches the
handler with that id; no claim concerns those ids. -/
inductive RawItem where
  | obj (id : Option IdVal) (mjml : Option String)
  | malformed
  deriving Repr, DecidableEq

/-- A raw POST /render-batch body as parsing delivers it: either it has no
readable items array at all, or it has one whose entries may individually
be malformed. -/
inductive RawBatchBody where
  | noItemsArray
  | withItems (l : List RawItem)
  deriving Repr, DecidableEq

/-- The first branch of batchRenderSchema's per-item oneOf (server.js
lines 43-54): an object with both an id (string or number) and an mjml
string is required. -/
def itemBranch1 : RawItem → Bool
  | .obj (some _) (some _) => true
  | _ => false

/-- The second branch of the per-item oneOf (server.js lines 55-63): an
object with an mjml string is required; an id field, being unmentioned, is
an allowed additional property, so this branch also accepts objects that
carry one. -/
def itemBranch2 : RawItem → Bool
  | .obj _ (some _) => true
  | _ => false

/-- The validator's oneOf semantics: exactly one of the two branches must
validate.  Because every object accepted by the first branch is also
accepted by the second, an entry carrying both an id and an mjml string
matches two branches and is rejected; type coercion cannot rescue it,
since the rejection is the overlap itself.  An entry therefore validates
exactly when it has an mjml string and no (string-or-number) id. -/
def validateItem (raw : RawItem) : Option BatchItem :=
  if (if itemBranch1 raw then 1 else 0) + (if itemBranch2 raw then 1 else 0) = 1 then
    match raw with
    | .obj oid (some m) => some { id := oid, mjml := m }
    | _ => none
  else none

/-- Schema validation of a raw batch body against batchRenderSchema:
an items array is required, it must be non-empty (minItems 1), and every
entry must satisfy the per-item oneOf. -/
def schemaValidateBatch (body : RawBatchBody) : Option (List BatchItem) :=
  match body with
  | .noItemsArray => none
  | .withItems l =>
    if l = [] then none
    else
      l.foldr (fun raw acc =>
        match validateItem raw, acc with
        | some item, some items => some (item :: items)
        | _, _ => none) (some [])

/-- A response of the whole batch route pipeline: the not-yet-dispatched
stages produce different body shapes, so the pipeline result is a sum. -/
inductive PipelineResponse where
  | handler (r : BatchResponse)
  | gate (r : ErrResponse)
  | framework (r : ErrResponse)
  deriving Repr, DecidableEq

/-- The item-count gate of server.js lines 76-90: registered as a
preHandler hook.  In the fastify request lifecycle a preHandler hook runs
after parsing and after schema validation, immediately before the route
handler, so in the pipeline below schema validation comes first, despite
the comment above the hook claiming the size check precedes schema
validation.  The gate itself fires exactly when the validated body carries
more than 100 items. -/
def preHandlerGate (items : List BatchItem) : Option ErrResponse :=
  if items.length > 100 then
    some { status := 413, error := "Too many items (max 100 at once)", code := "TOO_MANY_ITEMS" }
  else
    none

/-- The full POST /render-batch pipeline as fastify executes it: parsing,
then schema validation (a failure goes to the central error handler), then
the preHandler gate, then the route handler. -/
def batchPipeline (mjml2html : Compiler) (dev : Bool) (body : RawBatchBody) : PipelineResponse :=
  match schemaValidateBatch body with
  | none => .framework (setErrorHandler (validationError "body validation failed"))
  | some items =>
    match preHandlerGate items with
    | some resp => .gate resp
    | none => .handler (batchHandler mjml2html dev items)

/-- The log lines the single-render handler emits along each branch
(warn, debug, info and error calls of server.js lines 115-172), so that
the only cross-request state of the process, the logger, is explicit. -/
def renderLog (mjml2html : Compiler) (mjml : String) : List String :=
  if mjml = "" then ["Invalid MJML input"]
  else if jsLength mjml > maxSize then ["MJML content too large"]
  else
    "Rendering MJML" ::
      match mjml2html mjml renderOptions with
      | .thrown _ => ["Unexpected error during rendering"]
      | .ok r =>
        if r.errors ≠ [] then ["MJML compilation errors"]
        else
          match r.html with
          | none => ["No HTML generated"]
          | some h => if h = "" then ["No HTML generated"] else ["MJML rendered successfully"]

/-- One request against the live process: the handler computes its
response and appends its log lines to the process-wide log, the only
mutable state the route touches. -/
def renderStep (mjml2html : Compiler) (dev : Bool) (log : List String) (mjml : String) :
    HttpResponse × List String :=
  (renderHandler mjml2html dev mjml, log ++ renderLog mjml2html mjml)

/-- A whole session: a sequence of POST /render requests served in order
against the same process, threading the log state through; returns the
responses in order together with the final log. -/
def serveRender (mjml2html : Compiler) (dev : Bool) :
    List String → List String → List HttpResponse × List String
  | [], log => ([], log)
  | m :: ms, log =>
    let (resp, log') := renderStep mjml2html dev log m
    let (rest, log'') := serveRender mjml2html dev ms log'
    (resp :: rest, log'')

/-- The observable classification of a single-render response: whether it
succeeded, and the code, html and errors payload it carries. -/
structure Outcome where
  success : Bool
  code : Option String
  html : Option String
  errors : Option (List ErrorOut)
  deriving Repr, DecidableEq

/-- Classification of a response of POST /render. -/
def renderOutcome (resp : HttpResponse) : Outcome :=
  { success := resp.status = 200
    code := resp.code
    html := resp.html
    errors := resp.errors }

/-- Classification of one batch ItemResult, for comparison with the
single-render route. -/
def itemOutcome (r : ItemResult) : Outcome :=
  { success := r.success
    code := r.code
    html := r.html
    errors := r.errors }

/-- Failure classification of one batch item, read off the compiler
outcome: the code the per-item cascade files the failure under, or none
when the item succeeds. -/
def failureCodeOf (mjml2html : Compiler) (item : BatchItem) : Option String :=
  if jsLength item.mjml > maxSize then some "CONTENT_TOO_LARGE"
  else
    match mjml2html item.mjml renderOptions with
    | .thrown _ => some "PROCESSING_ERROR"
    | .ok r => if r.errors ≠ [] then some "COMPILATION_ERROR" else none

/-- Some concrete compiler behaviours used to instantiate theorems:
a compiler that always succeeds with a fixed html string. -/
def cOk : Compiler := fun _ _ => .ok { html := some "<html>ok</html>", errors := [] }

/-- A compiler that always throws. -/
def cThrow : Compiler := fun _ _ => .thrown "boom"

/-- A compiler that reports one diagnostic together with partial html. -/
def cErrs : Compiler := fun _ _ =>
  .ok { html := some "<partial>"
        errors := [{ line := 3, message := "bad tag", tagName := "mj-invalid",
                     formattedMessage := "line 3: bad tag" }] }

/-- A compiler that returns neither diagnostics nor html. -/
def cNoOut : Compiler := fun _ _ => .ok { html := none, errors := [] }

theorem length_mapWithIndex (f : Nat → α → β) (i : Nat) (l : List α) :
    (mapWithIndex f i l).length = l.length := by
  induction l generalizing i with
  | nil => rfl
  | cons a as ih => simp [mapWithIndex, ih]

theorem get_mapWithIndex (f : Nat → α → β) (i : Nat) (l : List α) (j : Nat)
    (hj : j < l.length) :
    (mapWithIndex f i l).get ⟨j, by rw [length_mapWithIndex]; exact hj⟩ =
      f (i + j) (l.get ⟨j, hj⟩) := by
  induction l generalizing i j with
  | nil => exact absurd hj (by simp)
  | cons a as ih =>
    cases j with
    | zero => simp [mapWithIndex]
    | succ j =>
      have hj' : j < as.length := Nat.lt_of_succ_lt_succ hj
      show (mapWithIndex f (i + 1) as).get ⟨j, _⟩ = f (i + (j + 1)) (as.get ⟨j, hj'⟩)
      rw [ih (i + 1) j hj']
      have harith : i + 1 + j = i + (j + 1) := by omega
      rw [harith]

theorem length_batchResults (c : Compiler) (items : List BatchItem) :
    (batchResults c items).length = items.length :=
  length_mapWithIndex _ _ _

theorem get_batchResults (c : Compiler) (items : List BatchItem) (j : Nat)
    (hj : j < items.length) :
    (batchResults c items).get ⟨j, by rw [length_batchResults]; exact hj⟩ =
      processItem c j (items.get ⟨j, hj⟩) := by
  have h := get_mapWithIndex (processItem c) 0 items j hj
  simpa using h

theorem processItem_id (c : Compiler) (idx : Nat) (item : BatchItem) :
    (processItem c idx item).id = item.id.getD (.num idx) := by
  unfold processItem
  split
  · rfl
  · split
    · rfl
    · split
      · rfl
      · rfl

theorem processItem_code (c : Compiler) (idx : Nat) (item : BatchItem) :
    (processItem c idx item).code = failureCodeOf c item := by
  unfold processItem failureCodeOf
  split
  · rfl
  · split
    · rfl
    · split
      · rfl
      · rfl

theorem processItem_success (c : Compiler) (idx : Nat) (item : BatchItem) :
    (processItem c idx item).success = (failureCodeOf c item).isNone := by
  unfold processItem failureCodeOf
  split
  · rfl
  · split
    · rfl
    · split
      · rfl
      · rfl

/-- C1.  Batch isolation: for a batch of N items (1 <= N <= 100) in which
item k fails (oversize, compiler diagnostics) or the compiler throws on
it, the handler still answers with the 200 body holding a results array of
length exactly N; entry k has success false and carries the failure's
code; every entry j is exactly the result of processing item j alone, so
entries other than k are unaffected by the failure; and since the handler
is a total function into the 200 body, no per-item exception reaches the
batch caller.  The compiler is universally quantified, including always-
throwing ones. -/
theorem batch_isolation (c : Compiler) (dev : Bool) (items : List BatchItem)
    (k : Nat) (hk : k < items.length)
    (h1 : 1 ≤ items.length) (h100 : items.length ≤ 100)
    (hfail : (failureCodeOf c (items.get ⟨k, hk⟩)).isSome) :
    batchHandler c dev items =
      .ok (mkSummary (batchResults c items)) (batchResults c items) ∧
    (batchResults c items).length = items.length ∧
    ((batchResults c items).get ⟨k, by rw [length_batchResults]; exact hk⟩).success = false ∧
    ((batchResults c items).get ⟨k, by rw [length_batchResults]; exact hk⟩).code =
      failureCodeOf c (items.get ⟨k, hk⟩) ∧
    ∀ j, ∀ hj : j < items.length,
      (batchResults c items).get ⟨j, by rw [length_batchResults]; exact hj⟩ =
        processItem c j (items.get ⟨j, hj⟩) := by
  have hne : items ≠ [] := by
    intro h
    rw [h] at h1
    exact absurd h1 (by simp)
  refine ⟨?_, length_batchResults c items, ?_, ?_, ?_⟩
  · simp [batchHandler, hne]
  · rw [get_batchResults c items k hk, processItem_success]
    rcases Option.isSome_iff_exists.mp hfail with ⟨v, hv⟩
    rw [hv]
    rfl
  · rw [get_batchResults c items k hk, processItem_code]
  · intro j hj
    exact get_batchResults c items j hj

/-- Closed instantiation of batch_isolation: a two-item batch whose first
item makes the compiler throw. -/
theorem batch_isolation_witness :
    (failureCodeOf cThrow (([⟨none, "a"⟩, ⟨some (.str "x"), "b"⟩] :
        List BatchItem).get ⟨0, by decide⟩)).isSome = true ∧
    ((batchResults cThrow [⟨none, "a"⟩, ⟨some (.str "x"), "b"⟩]).get
        ⟨0, by rw [length_batchResults]; decide⟩).success = false ∧
    ((batchResults cThrow [⟨none, "a"⟩, ⟨some (.str "x"), "b"⟩]).get
        ⟨0, by rw [length_batchResults]; decide⟩).code = some "PROCESSING_ERROR" := by
  have h := batch_isolation cThrow false [⟨none, "a"⟩, ⟨some (.str "x"), "b"⟩]
    0 (by decide) (by decide) (by decide) (by decide)
  exact ⟨by decide, h.2.2.1, by rw [h.2.2.2.1]; decide⟩

/-- C3.  Batch summary invariant: the batch response is the 200 body whose
summary has total equal to the number of submitted items, success equal to
the count of results with success true, failed equal to the count with
success false, and success plus failed equal to total. -/
theorem batch_summary_invariant (c : Compiler) (dev : Bool) (items : List BatchItem)
    (hne : items ≠ []) :
    batchHandler c dev items =
      .ok (mkSummary (batchResults c items)) (batchResults c items) ∧
    (mkSummary (batchResults c items)).total = items.length ∧
    (mkSummary (batchResults c items)).success =
      (batchResults c items).countP (fun r => r.success) ∧
    (mkSummary (batchResults c items)).failed =
      (batchResults c items).countP (fun r => !r.success) ∧
    (mkSummary (batchResults c items)).success + (mkSummary (batchResults c items)).failed =
      (mkSummary (batchResults c items)).total := by
  have hcount : ((batchResults c items).filter (fun r => r.success)).length =
      (batchResults c items).countP (fun r => r.success) :=
    (List.countP_eq_length_filter _ _).symm
  have hsplit : (batchResults c items).length =
      (batchResults c items).countP (fun r => r.success) +
        (batchResults c items).countP (fun r => !r.success) := by
    have h := List.length_eq_countP_add_countP (p := fun r : ItemResult => r.success)
      (batchResults c items)
    have hcongr : (batchResults c items).countP (fun r => ¬r.success) =
        (batchResults c items).countP (fun r => !r.success) := by
      apply List.countP_congr
      intro r _
      simp
    rw [hcongr] at h
    exact h
  have hle : (batchResults c items).countP (fun r => r.success) ≤
      (batchResults c items).length :=
    List.countP_le_length _
  refine ⟨by simp [batchHandler, hne], ?_, ?_, ?_, ?_⟩
  · rw [mkSummary, length_batchResults]
  · rw [mkSummary]
    exact hcount
  · show (batchResults c items).length -
        ((batchResults c items).filter (fun r => r.success)).length = _
    rw [hcount]
    omega
  · show ((batchResults c items).filter (fun r => r.success)).length +
        ((batchResults c items).length -
          ((batchResults c items).filter (fun r => r.success)).length) =
        (batchResults c items).length
    rw [hcount]
    omega

/-- Closed instantiation of batch_summary_invariant: one succeeding and
one failing item give total 2, success 1, failed 1. -/
theorem batch_summary_invariant_witness :
    mkSummary (batchResults cErrs [⟨none, "a"⟩]) =
      { total := 1, success := 0, failed := 1 } ∧
    (mkSummary (batchResults cErrs [⟨none, "a"⟩])).success +
      (mkSummary (batchResults cErrs [⟨none, "a"⟩])).failed =
      (mkSummary (batchResults cErrs [⟨none, "a"⟩])).total := by
  have h := batch_summary_invariant cErrs false [⟨none, "a"⟩] (by decide)
  exact ⟨by decide, h.2.2.2.2⟩

/-- C5.  For markup that reaches the compiler (non-empty, within the size
cap) on which the compiler returns a non-empty diagnostics list, the
render route answers 400 with code COMPILATION_ERROR; the errors array has
exactly as many entries as the diagnostics list, each entry carries the
diagnostic's line, message and tagName, and the response carries no html
field even though the compiler result may hold partial html (r.html is
unconstrained here). -/
theorem compilation_error_response (c : Compiler) (dev : Bool) (mjml : String)
    (hne : mjml ≠ "") (hsize : ¬ jsLength mjml > maxSize)
    (r : CompileResult) (hc : c mjml renderOptions = .ok r) (herr : r.errors ≠ []) :
    renderHandler c dev mjml =
      { status := 400
        error := some "MJML compilation failed"
        code := some "COMPILATION_ERROR"
        errors := some (r.errors.map toErrorOut) } ∧
    (r.errors.map toErrorOut).length = r.errors.length ∧
    (∀ j, ∀ hj : j < r.errors.length,
      (r.errors.map toErrorOut).get ⟨j, by rw [List.length_map]; exact hj⟩ =
        { line := (r.errors.get ⟨j, hj⟩).line
          message := (r.errors.get ⟨j, hj⟩).message
          tagName := (r.errors.get ⟨j, hj⟩).tagName }) ∧
    (renderHandler c dev mjml).html = none := by
  have hresp : renderHandler c dev mjml =
      { status := 400
        error := some "MJML compilation failed"
        code := some "COMPILATION_ERROR"
        errors := some (r.errors.map toErrorOut) } := by
    unfold renderHandler
    rw [if_neg hne, if_neg hsize, hc]
    simp [herr]
  refine ⟨hresp, List.length_map _ _, ?_, by rw [hresp]⟩
  intro j hj
  simp only [List.get_eq_getElem, List.getElem_map]
  rfl

/-- Closed instantiation of compilation_error_response at a compiler that
reports one diagnostic together with partial html. -/
theorem compilation_error_response_witness :
    "<mjml>" ≠ "" ∧ ¬ jsLength "<mjml>" > maxSize ∧
    renderHandler cErrs false "<mjml>" =
      { status := 400
        error := some "MJML compilation failed"
        code := some "COMPILATION_ERROR"
        errors := some [{ line := 3, message := "bad tag", tagName := "mj-invalid" }] } ∧
    (renderHandler cErrs false "<mjml>").html = none := by
  have h := compilation_error_response cErrs false "<mjml>" (by decide) (by decide)
    { html := some "<partial>"
      errors := [{ line := 3, message := "bad tag", tagName := "mj-invalid",
                   formattedMessage := "line 3: bad tag" }] }
    rfl (by decide)
  exact ⟨by decide, by decide, h.1, h.2.2.2⟩

/-- Handler-level identity resolution, the behaviour the route's own doc
comment and id-resolution code intend: the results entry of an item that
reaches the handler carrying an explicit id echoes that id exactly (an
IdVal keeps its string or number constructor), and the entry of an item
without an id carries the item's zero-based position as a number, for
every compiler behaviour.  The route's validation schema, however, never
delivers an item with a string-or-number id to the handler: see the
oneOf overlap established for claim C7 below. -/
theorem id_preservation (c : Compiler) (items : List BatchItem) (i : Nat)
    (hi : i < items.length) :
    (∀ v : IdVal, (items.get ⟨i, hi⟩).id = some v →
      ((batchResults c items).get ⟨i, by rw [length_batchResults]; exact hi⟩).id = v) ∧
    ((items.get ⟨i, hi⟩).id = none →
      ((batchResults c items).get ⟨i, by rw [length_batchResults]; exact hi⟩).id = .num i) := by
  have hg := get_batchResults c items i hi
  constructor
  · intro v hv
    rw [hg, processItem_id, hv]
    rfl
  · intro hv
    rw [hg, processItem_id, hv]
    rfl

/-- Closed instantiation of id_preservation at the handler level: a
string id, a number id and an absent id, under a throwing compiler (ids
are preserved also on the failure path). -/
theorem id_preservation_witness :
    ((batchResults cThrow [⟨some (.str "1"), "a"⟩, ⟨some (.num 7), "b"⟩, ⟨none, "c"⟩]).get
        ⟨0, by rw [length_batchResults]; decide⟩).id = .str "1" ∧
    ((batchResults cThrow [⟨some (.str "1"), "a"⟩, ⟨some (.num 7), "b"⟩, ⟨none, "c"⟩]).get
        ⟨1, by rw [length_batchResults]; decide⟩).id = .num 7 ∧
    ((batchResults cThrow [⟨some (.str "1"), "a"⟩, ⟨some (.num 7), "b"⟩, ⟨none, "c"⟩]).get
        ⟨2, by rw [length_batchResults]; decide⟩).id = .num 2 := by
  refine ⟨?_, ?_, ?_⟩
  · exact (id_preservation cThrow [⟨some (.str "1"), "a"⟩, ⟨some (.num 7), "b"⟩, ⟨none, "c"⟩]
      0 (by decide)).1 (.str "1") rfl
  · exact (id_preservation cThrow [⟨some (.str "1"), "a"⟩, ⟨some (.num 7), "b"⟩, ⟨none, "c"⟩]
      1 (by decide)).1 (.num 7) rfl
  · exact (id_preservation cThrow [⟨some (.str "1"), "a"⟩, ⟨some (.num 7), "b"⟩, ⟨none, "c"⟩]
      2 (by decide)).2 rfl

/-- C10.  The per-item catch files a compiler exception as a
PROCESSING_ERROR entry whose error field is the raw exception message; the
per-item path takes no development-mode flag at all, and the batch handler
gives the same response in every mode, so the raw message is embedded
unconditionally.  The top-level INTERNAL_ERROR envelope built by the outer
catch blocks, in contrast, carries the raw message exactly when the
development-mode flag is set. -/
theorem processing_error_vs_internal_error (c : Compiler) (idx : Nat) (item : BatchItem)
    (msg : String) (hsize : ¬ jsLength item.mjml > maxSize)
    (hthrow : c item.mjml renderOptions = .thrown msg) (m : String) :
    (processItem c idx item).code = some "PROCESSING_ERROR" ∧
    (processItem c idx item).error = some msg ∧
    (∀ dev₁ dev₂ : Bool, ∀ items : List BatchItem,
      batchHandler c dev₁ items = batchHandler c dev₂ items) ∧
    (internalErrorResponse true m).message = some m ∧
    (internalErrorResponse false m).message = none := by
  have hitem : processItem c idx item =
      { id := item.id.getD (.num idx)
        success := false
        error := some msg
        code := some "PROCESSING_ERROR" } := by
    unfold processItem
    rw [if_neg hsize, hthrow]
  exact ⟨by rw [hitem], by rw [hitem], fun _ _ _ => rfl, rfl, rfl⟩

/-- Closed instantiation of processing_error_vs_internal_error at a
throwing compiler. -/
theorem processing_error_vs_internal_error_witness :
    (processItem cThrow 0 ⟨none, "a"⟩).code = some "PROCESSING_ERROR" ∧
    (processItem cThrow 0 ⟨none, "a"⟩).error = some "boom" ∧
    (internalErrorResponse true "boom").message = some "boom" ∧
    (internalErrorResponse false "boom").message = none := by
  have h := processing_error_vs_internal_error cThrow 0 ⟨none, "a"⟩ "boom"
    (by decide) rfl "boom"
  exact ⟨h.1, h.2.1, h.2.2.2.1, h.2.2.2.2⟩

/-- C2 counterexample.  The per-item logic of the batch route is not the
single-render logic: on the empty markup string the render route rejects
with INVALID_INPUT before calling the compiler, while the batch item is
handed to the compiler and, under a compiler that returns html for it,
succeeds.  The classifications differ, so the two logics disagree on a
common input. -/
theorem render_batch_item_divergence :
    renderOutcome (renderHandler cOk false "") ≠
      itemOutcome (processItem cOk 0 { id := none, mjml := "" }) ∧
    (renderHandler cOk false "").status = 400 ∧
    (renderHandler cOk false "").code = some "INVALID_INPUT" ∧
    (processItem cOk 0 { id := none, mjml := "" }).success = true := by
  decide

/-- C2 amended.  On inputs where neither of the checks the batch item
path omits can fire, the two routes classify identically: for non-empty
markup, when either the size cap is exceeded or the compiler returns a
result that has diagnostics or a non-empty html string, the render
response and the ItemResult agree on success, code, html and errors
payload.  (The omitted checks are the INVALID_INPUT emptiness test, the
NO_OUTPUT guard, and the INTERNAL_ERROR conversion of a thrown exception,
which the batch path files as PROCESSING_ERROR instead.) -/
theorem render_batch_item_agreement (c : Compiler) (dev : Bool) (idx : Nat)
    (item : BatchItem) (hne : item.mjml ≠ "")
    (hwell : jsLength item.mjml > maxSize ∨
      ∃ r : CompileResult, c item.mjml renderOptions = .ok r ∧
        (r.errors ≠ [] ∨ ∃ h : String, r.html = some h ∧ h ≠ "")) :
    renderOutcome (renderHandler c dev item.mjml) =
      itemOutcome (processItem c idx item) := by
  by_cases hs : jsLength item.mjml > maxSize
  · unfold renderHandler
    simp only [processItem]
    rw [if_neg hne, if_pos hs, if_pos hs]
    rfl
  · rcases hwell with hs' | ⟨r, hc, hok⟩
    · exact absurd hs' hs
    · unfold renderHandler
      simp only [processItem]
      rw [if_neg hne, if_neg hs, if_neg hs]
      simp only [hc]
      by_cases herr : r.errors = []
      · rcases hok with hok | ⟨h, hh, hne'⟩
        · exact absurd herr hok
        · simp [renderOutcome, itemOutcome, herr, hh, hne']
      · simp [renderOutcome, itemOutcome, herr]

/-- Closed instantiation of render_batch_item_agreement: a diagnostics
result classifies as COMPILATION_ERROR on both routes. -/
theorem render_batch_item_agreement_witness :
    ("<mjml>" : String) ≠ "" ∧
    cErrs "<mjml>" renderOptions =
      .ok { html := some "<partial>"
            errors := [{ line := 3, message := "bad tag", tagName := "mj-invalid",
                         formattedMessage := "line 3: bad tag" }] } ∧
    renderOutcome (renderHandler cErrs false "<mjml>") =
      itemOutcome (processItem cErrs 0 { id := none, mjml := "<mjml>" }) := by
  refine ⟨by decide, rfl, ?_⟩
  exact render_batch_item_agreement cErrs false 0 { id := none, mjml := "<mjml>" }
    (by decide)
    (Or.inr ⟨_, rfl, Or.inl (by decide)⟩)

/-- A markup string of one mebibyte of two-byte characters: its UTF-8 byte
length is two mebibytes, its UTF-16 code-unit count is one mebibyte. -/
def bigTwoByte : String := String.mk (List.replicate (1024 * 1024) 'é')

/-- A markup string of one mebibyte plus one ASCII characters. -/
def bigAscii : String := String.mk (List.replicate (1024 * 1024 + 1) 'x')

theorem jsLength_mk (l : List Char) : jsLength (String.mk l) = (l.map utf16Len).sum := rfl

theorem byteLen_mk (l : List Char) : byteLen (String.mk l) = (l.map Char.utf8Size).sum := rfl

theorem jsLength_replicate (n : Nat) (ch : Char) :
    jsLength (String.mk (List.replicate n ch)) = n * utf16Len ch := by
  rw [jsLength_mk, List.map_replicate, List.sum_const_nat]

theorem byteLen_replicate (n : Nat) (ch : Char) :
    byteLen (String.mk (List.replicate n ch)) = n * ch.utf8Size := by
  rw [byteLen_mk, List.map_replicate, List.sum_const_nat]

theorem mk_ne_empty (l : List Char) (h : l ≠ []) : String.mk l ≠ "" := by
  intro he
  apply h
  have hd : (String.mk l).data = ("" : String).data := by rw [he]
  simpa using hd

theorem bigTwoByte_ne_empty : bigTwoByte ≠ "" := by
  unfold bigTwoByte
  apply mk_ne_empty
  rw [Ne, List.replicate_eq_nil_iff]
  decide

/-- C4 counterexample.  The size check compares the JavaScript string
length, the UTF-16 code-unit count, against the cap, not the byte length:
a markup of one mebibyte of two-byte characters has byte length two
mebibytes, yet the render route does not return 413 for it; the compiler
is invoked and its output returned with status 200. -/
theorem byte_length_not_rejected :
    byteLen bigTwoByte > 1024 * 1024 ∧
    renderHandler cOk false bigTwoByte = { status := 200, html := some "<html>ok</html>" } := by
  have hjs : jsLength bigTwoByte = 1024 * 1024 := by
    rw [bigTwoByte, jsLength_replicate]
    have h1 : utf16Len 'é' = 1 := by decide
    rw [h1, Nat.mul_one]
  constructor
  · rw [bigTwoByte, byteLen_replicate]
    have h2 : Char.utf8Size 'é' = 2 := by decide
    rw [h2]
    omega
  · unfold renderHandler
    rw [if_neg bigTwoByte_ne_empty, if_neg (by rw [hjs]; decide)]
    rfl

/-- C4 amended.  The size rejection is measured in UTF-16 code units (the
JavaScript string length): every markup whose code-unit count exceeds
1024 * 1024 is rejected with 413 CONTENT_TOO_LARGE by the render route,
and per item by the batch route, for every compiler behaviour alike, so
without the compiler being invoked; byte length above one mebibyte alone
does not trigger the rejection. -/
theorem size_limit_in_utf16_units (c : Compiler) (dev : Bool) (mjml : String)
    (h : jsLength mjml > maxSize) (idx : Nat) (oid : Option IdVal) :
    renderHandler c dev mjml =
      { status := 413
        error := some "MJML content is too large (max 1MB)"
        code := some "CONTENT_TOO_LARGE" } ∧
    processItem c idx { id := oid, mjml := mjml } =
      { id := oid.getD (.num idx)
        success := false
        error := some "MJML content is too large (max 1MB)"
        code := some "CONTENT_TOO_LARGE" } := by
  have hne : mjml ≠ "" := by
    intro he
    rw [he] at h
    exact absurd h (by decide)
  constructor
  · unfold renderHandler
    rw [if_neg hne, if_pos h]
  · simp only [processItem]
    rw [if_pos h]

/-- Closed instantiation of size_limit_in_utf16_units at a string one
character over the cap. -/
theorem size_limit_in_utf16_units_witness :
    jsLength bigAscii > maxSize ∧
    renderHandler cOk false bigAscii =
      { status := 413
        error := some "MJML content is too large (max 1MB)"
        code := some "CONTENT_TOO_LARGE" } := by
  have h : jsLength bigAscii > maxSize := by
    rw [bigAscii, jsLength_replicate]
    have h1 : utf16Len 'x' = 1 := by decide
    rw [h1, Nat.mul_one]
    unfold maxSize
    omega
  exact ⟨h, (size_limit_in_utf16_units cOk false bigAscii h 0 none).1⟩

/-- A batch body of 101 entries whose first entry fails the per-item
schema: the input on which the claimed gate ordering is observable. -/
def badBatchItems : List RawItem :=
  .malformed :: List.replicate 100 (.obj none (some "x"))

/-- A batch body of 101 schema-valid entries. -/
def oversizeValidItems : List RawItem :=
  List.replicate 101 (.obj none (some "x"))

/-- C6.  The item-count gate is a preHandler hook, which the framework
runs after schema validation, not before it as the code comment and the
specification state.  On a 101-item body whose first entry is malformed,
schema validation answers first: the response is the 400 INVALID_INPUT
envelope of the central error handler, not the gate's 413 TOO_MANY_ITEMS.
On a 101-item body of schema-valid entries the gate does fire, and it
answers before the route handler, hence before any compilation: under an
always-throwing compiler the response is still the gate's. -/
theorem gate_runs_after_validation :
    badBatchItems.length = 101 ∧
    batchPipeline cOk false (.withItems badBatchItems) =
      .framework { status := 400, error := "body validation failed", code := "INVALID_INPUT" } ∧
    batchPipeline cThrow false (.withItems oversizeValidItems) =
      .gate { status := 413, error := "Too many items (max 100 at once)", code := "TOO_MANY_ITEMS" } := by
  refine ⟨by decide, by decide, by decide⟩

/-- C8.  The central error handler maps every schema-validation failure
(the framework's status-400 validation error) to 400 INVALID_INPUT, so the
validation library's own code is never echoed, and maps every status-413
transport error (such as an oversized body) to 413 CONTENT_TOO_LARGE. -/
theorem error_normalization (msg : String) (e : FrameworkError)
    (h413 : e.statusCode = some 413) :
    setErrorHandler (validationError msg) =
      { status := 400, error := jsOr (some msg) "Validation error", code := "INVALID_INPUT" } ∧
    (setErrorHandler (validationError msg)).code = "INVALID_INPUT" ∧
    setErrorHandler e =
      { status := 413, error := jsOr e.message "Payload too large", code := "CONTENT_TOO_LARGE" } := by
  have h1 : setErrorHandler (validationError msg) =
      { status := 400, error := jsOr (some msg) "Validation error", code := "INVALID_INPUT" } := by
    unfold setErrorHandler validationError
    rw [if_pos ⟨rfl, rfl⟩]
  refine ⟨h1, by rw [h1], ?_⟩
  unfold setErrorHandler
  rw [if_neg ?hno, if_pos h413]
  case hno =>
    intro hcon
    rw [h413] at hcon
    exact absurd hcon.1 (by decide)

/-- Closed instantiation of error_normalization at a validation failure
message and at the framework's oversized-body error. -/
theorem error_normalization_witness :
    setErrorHandler (validationError "body must have required property mjml") =
      { status := 400, error := "body must have required property mjml",
        code := "INVALID_INPUT" } ∧
    setErrorHandler
        { statusCode := some 413, code := some "FST_ERR_CTP_BODY_TOO_LARGE",
          message := some "Request body is too large" } =
      { status := 413, error := "Request body is too large", code := "CONTENT_TOO_LARGE" } := by
  have h := error_normalization "body must have required property mjml"
    { statusCode := some 413, code := some "FST_ERR_CTP_BODY_TOO_LARGE",
      message := some "Request body is too large" } rfl
  exact ⟨h.1, h.2.2⟩

theorem serveRender_responses (c : Compiler) (dev : Bool) (reqs log : List String) :
    (serveRender c dev reqs log).1 = reqs.map (renderHandler c dev) := by
  induction reqs generalizing log with
  | nil => rfl
  | cons m ms ih => simp [serveRender, renderStep, ih]

/-- C9.  Determinism of the render route: over a whole session of
requests served in order against the same process (the log is the only
process state the route touches), the response at a position depends only
on the markup submitted there; two positions with the same markup receive
equal responses, in particular byte-identical html, and the whole
response stream is independent of the log the process starts with. -/
theorem render_deterministic (c : Compiler) (dev : Bool) (reqs log₀ : List String)
    (i j : Nat) (hi : i < reqs.length) (hj : j < reqs.length)
    (hsame : reqs[i]? = reqs[j]?) :
    (serveRender c dev reqs log₀).1[i]? = (serveRender c dev reqs log₀).1[j]? ∧
    ((serveRender c dev reqs log₀).1[i]?).map (fun resp => resp.html) =
      ((serveRender c dev reqs log₀).1[j]?).map (fun resp => resp.html) ∧
    ∀ log₁ : List String,
      (serveRender c dev reqs log₀).1 = (serveRender c dev reqs log₁).1 := by
  have hij : (serveRender c dev reqs log₀).1[i]? = (serveRender c dev reqs log₀).1[j]? := by
    rw [serveRender_responses, List.getElem?_map, List.getElem?_map, hsame]
  refine ⟨hij, by rw [hij], ?_⟩
  intro log₁
  rw [serveRender_responses, serveRender_responses]

/-- Closed instantiation of render_deterministic: submitting the same
markup twice in one session yields equal responses. -/
theorem render_deterministic_witness :
    (["<a>", "<a>"] : List String)[0]? = (["<a>", "<a>"] : List String)[1]? ∧
    (serveRender cOk false ["<a>", "<a>"] []).1[0]? =
      (serveRender cOk false ["<a>", "<a>"] []).1[1]? := by
  exact ⟨by decide,
    (render_deterministic cOk false ["<a>", "<a>"] [] 0 1 (by decide) (by decide)
      (by decide)).1⟩

end MjmlApi
